import Mathlib

/-!
Shallow embedding of the procedural-city program (src/src/city.ts):
the grid layout planner (createBuildings, createRoads), the motion
updater (updateCars, updatePedestrians), the traffic signal controller
(updateTrafficLights) and the day/night cycle controller
(updateDayNightCycle).  Numeric state uses ℚ where the code only does
field arithmetic and comparisons, and ℝ where the code calls sin/cos.
Pedestrian rotation.y, which the code sets to multiples of Math.PI, is
stored as the rational coefficient of π (Math.PI / 2 is stored as 1/2).
-/

namespace Cityscape

/-! ## Layout planner: createBuildings and createRoads -/

inductive BuildingType
  | skyscraper
  | apartment
  | shop
  deriving DecidableEq

/-- Building category of cell (i, j), as computed by createBuildings:
start from skyscraper, overwrite with apartment when (i+j) % 5 = 0, then
overwrite with shop when (i+j) % 7 = 0. -/
def buildingTypeFor (i j : ℕ) : BuildingType :=
  let t0 := BuildingType.skyscraper
  let t1 := if (i + j) % 5 = 0 then BuildingType.apartment else t0
  let t2 := if (i + j) % 7 = 0 then BuildingType.shop else t1
  t2

/-- The claim's reading of the category rule: the shop check is decisive
when both divisibility conditions hold (shop is evaluated second). -/
def buildingTypeSpec (i j : ℕ) : BuildingType :=
  if (i + j) % 7 = 0 then BuildingType.shop
  else if (i + j) % 5 = 0 then BuildingType.apartment
  else BuildingType.skyscraper

/-- Road predicate of createBuildings' skip guard:
`if (i % 3 === 1 || j % 3 === 1) continue`. -/
def cellIsRoad (i j : ℕ) : Bool := i % 3 == 1 || j % 3 == 1

/-- The (i, j) cells that createBuildings actually builds on: the double
loop over [0, N) × [0, N) minus the cells skipped by the road guard. -/
def buildingCells (N : ℕ) : List (ℕ × ℕ) :=
  (List.range N).flatMap fun i =>
    (List.range N).filterMap fun j =>
      if i % 3 = 1 ∨ j % 3 = 1 then none else some (i, j)

/-- The indices at which createRoads builds a horizontal and a vertical
road strip: `if (i % 3 !== 1) continue`. -/
def roadIndices (N : ℕ) : List ℕ :=
  (List.range N).filter fun i => i % 3 == 1

/-! ## Motion updater: updateCars and updatePedestrians -/

inductive RoadAxis
  | horizontal
  | vertical
  deriving DecidableEq

/-- Simulation state of one car entry of the cars registry, plus the
headlight emissive intensity that updateDayNightCycle toggles on the
car's headlight meshes. -/
structure Car where
  x : ℚ
  z : ℚ
  speed : ℚ
  direction : ℚ
  road : RoadAxis
  headlightEmissive : ℚ
  deriving DecidableEq

/-- Simulation state of one pedestrian entry.  rotYPi is rotation.y in
units of π. -/
structure Pedestrian where
  x : ℚ
  z : ℚ
  rotYPi : ℚ
  speed : ℚ
  direction : ℚ
  road : RoadAxis
  deriving DecidableEq

/-- The coordinate on the car's moving axis. -/
def carCoord (c : Car) : ℚ :=
  match c.road with
  | RoadAxis.horizontal => c.x
  | RoadAxis.vertical => c.z

/-- The coordinate on the pedestrian's moving axis. -/
def pedCoord (p : Pedestrian) : ℚ :=
  match p.road with
  | RoadAxis.horizontal => p.x
  | RoadAxis.vertical => p.z

/-- Body of the forEach in updateCars: advance the moving-axis
coordinate by speed * direction, then wrap at ± centerOffset. -/
def updateCar (gridSize : ℚ) (c : Car) : Car :=
  let centerOffset := gridSize / 2
  match c.road with
  | RoadAxis.horizontal =>
    let x1 := c.x + c.speed * c.direction
    let x2 :=
      if c.direction > 0 ∧ x1 > centerOffset then -centerOffset
      else if c.direction < 0 ∧ x1 < -centerOffset then centerOffset
      else x1
    { c with x := x2 }
  | RoadAxis.vertical =>
    let z1 := c.z + c.speed * c.direction
    let z2 :=
      if c.direction > 0 ∧ z1 > centerOffset then -centerOffset
      else if c.direction < 0 ∧ z1 < -centerOffset then centerOffset
      else z1
    { c with z := z2 }

/-- updateCars: the forEach over the cars registry. -/
def updateCars (cars : List Car) (gridSize : ℚ) : List Car :=
  cars.map (updateCar gridSize)

/-- Body of the forEach in updatePedestrians: advance, set rotation.y
from direction and axis, then wrap at ± centerOffset. -/
def updatePedestrian (gridSize : ℚ) (p : Pedestrian) : Pedestrian :=
  let centerOffset := gridSize / 2
  match p.road with
  | RoadAxis.horizontal =>
    let x1 := p.x + p.speed * p.direction
    let rot : ℚ := if p.direction > 0 then 1 / 2 else -(1 / 2)
    let x2 :=
      if p.direction > 0 ∧ x1 > centerOffset then -centerOffset
      else if p.direction < 0 ∧ x1 < -centerOffset then centerOffset
      else x1
    { p with x := x2, rotYPi := rot }
  | RoadAxis.vertical =>
    let z1 := p.z + p.speed * p.direction
    let rot : ℚ := if p.direction > 0 then 0 else 1
    let z2 :=
      if p.direction > 0 ∧ z1 > centerOffset then -centerOffset
      else if p.direction < 0 ∧ z1 < -centerOffset then centerOffset
      else z1
    { p with z := z2, rotYPi := rot }

/-- updatePedestrians: the forEach over the pedestrians registry. -/
def updatePedestrians (pedestrians : List Pedestrian) (gridSize : ℚ) :
    List Pedestrian :=
  pedestrians.map (updatePedestrian gridSize)

/-- The wrap rule as the spec words it: add speed * direction, then if
direction > 0 and the new coordinate exceeds + gridSize / 2 reset to
- gridSize / 2, and symmetrically for direction < 0. -/
def specWrap (gridSize p speed direction : ℚ) : ℚ :=
  let centerOffset := gridSize / 2
  let q := p + speed * direction
  if direction > 0 ∧ q > centerOffset then -centerOffset
  else if direction < 0 ∧ q < -centerOffset then centerOffset
  else q

/-! ## Traffic signal controller: updateTrafficLights -/

/-- One entry of the trafficLights registry: the phase state, the timer,
and the emissive intensities of the three light meshes. -/
structure TrafficLight where
  state : ℕ
  timer : ℚ
  red : ℚ
  yellow : ℚ
  green : ℚ
  deriving DecidableEq

/-- Timer/phase part of the forEach body of updateTrafficLights:
`timer += 0.01; if (timer > 5) { state = (state + 1) % 3; timer = 0 }`. -/
def tickTimer (tl : TrafficLight) : TrafficLight :=
  let t := tl.timer + 1 / 100
  if t > 5 then { tl with state := (tl.state + 1) % 3, timer := 0 }
  else { tl with timer := t }

/-- Light-setting part of the forEach body: zero all three emissive
intensities, then set the one matching the state (the switch has no
default branch, so a state outside 0..2 leaves all three at zero). -/
def setLights (tl : TrafficLight) : TrafficLight :=
  let tl0 := { tl with red := 0, yellow := 0, green := 0 }
  match tl0.state with
  | 0 => { tl0 with red := 1 }
  | 1 => { tl0 with yellow := 1 }
  | 2 => { tl0 with green := 1 }
  | _ => tl0

/-- Full forEach body of updateTrafficLights on one signal. -/
def updateTrafficLight (tl : TrafficLight) : TrafficLight :=
  setLights (tickTimer tl)

/-- updateTrafficLights: receives the global time parameter but never
reads it, exactly as the source function does. -/
def updateTrafficLights (trafficLights : List TrafficLight) (_time : ℚ) :
    List TrafficLight :=
  trafficLights.map updateTrafficLight

/-! ## Day/night cycle controller: updateDayNightCycle -/

/-- An RGB color, channels normalized to [0, 1] as THREE.Color stores
hex components. -/
abbrev Color := ℝ × ℝ × ℝ

/-- Sky blue 0x87ceeb. -/
noncomputable def dayColor : Color := (135 / 255, 206 / 255, 235 / 255)

/-- Coral 0xff7f50. -/
noncomputable def sunsetColor : Color := (255 / 255, 127 / 255, 80 / 255)

/-- Dark blue 0x000033. -/
noncomputable def nightColor : Color := (0, 0, 51 / 255)

/-- THREE.Color.lerpColors: per-channel linear blend
a + (b - a) * t. -/
noncomputable def lerpColor (a b : Color) (t : ℝ) : Color :=
  (a.1 + (b.1 - a.1) * t, a.2.1 + (b.2.1 - a.2.1) * t,
    a.2.2 + (b.2.2 - a.2.2) * t)

/-- Sun angle: `dayProgress * Math.PI * 2 - Math.PI / 2`. -/
noncomputable def sunAngleOf (dayProgress : ℝ) : ℝ :=
  dayProgress * (Real.pi * 2) - Real.pi / 2

/-- Sun height: `Math.sin(sunAngle) * 50 + 50`. -/
noncomputable def sunHeightOf (dayProgress : ℝ) : ℝ :=
  Real.sin (sunAngleOf dayProgress) * 50 + 50

/-- Piecewise sky color of updateDayNightCycle as a function of the sun
height. -/
noncomputable def skyColor (sunHeight : ℝ) : Color :=
  if sunHeight > 80 then dayColor
  else if sunHeight > 25 then
    lerpColor sunsetColor dayColor ((sunHeight - 25) / 55)
  else if sunHeight > 0 then
    lerpColor nightColor sunsetColor (sunHeight / 25)
  else nightColor

/-- Street-lamp intensity written by updateDayNightCycle, as a function
of the sun height: `max(0, 1 - sunHeight / 30)` below 30, else 0. -/
noncomputable def lampIntensity (sunHeight : ℝ) : ℝ :=
  if sunHeight < 30 then max 0 (1 - sunHeight / 30) else 0

/-- A lamppost: its ground position and the two handles the day/night
controller writes (point-light intensity and bulb emissive). -/
structure Lamp where
  x : ℚ
  z : ℚ
  lightIntensity : ℝ
  bulbEmissiveIntensity : ℝ

/-- The scene state updateDayNightCycle reads and writes: the sun
light, the global light intensities, the background color, and the
actor registries it traverses. -/
structure SceneState where
  sunLightPos : ℝ × ℝ × ℝ
  sunIntensity : ℝ
  ambientIntensity : ℝ
  background : Color
  buildingPositions : List (ℚ × ℚ)
  cars : List Car
  pedestrians : List Pedestrian
  lamps : List Lamp

/-- updateDayNightCycle: move the sun on its circle, set sun/ambient
intensity, recompute the sky color, drive lamp intensities from the sun
height, and toggle car headlight emissives. -/
noncomputable def updateDayNightCycle (dayProgress : ℝ) (s : SceneState) :
    SceneState :=
  let sunAngle := sunAngleOf dayProgress
  let sunHeight := sunHeightOf dayProgress
  let sunRadius : ℝ := 100
  { s with
    sunLightPos :=
      (Real.cos sunAngle * sunRadius, sunHeight, Real.sin sunAngle * sunRadius),
    sunIntensity := if sunHeight > 50 then 1 else max 0 (sunHeight / 50),
    ambientIntensity := if sunHeight > 50 then 0.3 else 0.1,
    background := skyColor sunHeight,
    lamps := s.lamps.map fun l =>
      if sunHeight < 30 then
        { l with lightIntensity := max 0 (1 - sunHeight / 30),
                 bulbEmissiveIntensity := max 0 (1 - sunHeight / 30) }
      else
        { l with lightIntensity := 0, bulbEmissiveIntensity := 0 },
    cars := s.cars.map fun c =>
      { c with headlightEmissive := if sunHeight < 40 then 1 else 0 } }

/-- Position projection used to state that motion state is untouched by
the day/night controller. -/
def carPos (c : Car) : ℚ × ℚ := (c.x, c.z)

/-- Ground position of a lamp. -/
def lampPos (l : Lamp) : ℚ × ℚ := (l.x, l.z)

/-! ## Theorems -/

/-- C4: for every non-road cell (i, j) the category is apartment when
(i+j) mod 5 = 0, shop when (i+j) mod 7 = 0 and otherwise skyscraper,
with the shop check evaluated after the apartment check so that shop
wins a tie; in particular at i + j = 0 and i + j = 35 the category is
shop. -/
theorem building_category_rule (i j : ℕ) :
    buildingTypeFor i j = buildingTypeSpec i j ∧
    buildingTypeFor 0 0 = BuildingType.shop ∧
    buildingTypeFor 35 0 = BuildingType.shop := by
  refine ⟨?_, by decide, by decide⟩
  unfold buildingTypeFor buildingTypeSpec
  split_ifs <;> rfl

/-- C5: a cell (i, j) is a road cell iff i mod 3 = 1 or j mod 3 = 1;
the role is a pure function so recomputing it gives the same answer;
the building pass iterates exactly the in-range non-road cells; and the
road pass builds strips exactly at the in-range indices with
i mod 3 = 1. -/
theorem grid_role_rule (N i j : ℕ) :
    (cellIsRoad i j = true ↔ i % 3 = 1 ∨ j % 3 = 1) ∧
    cellIsRoad i j = cellIsRoad i j ∧
    ((i, j) ∈ buildingCells N ↔ i < N ∧ j < N ∧ cellIsRoad i j = false) ∧
    (i ∈ roadIndices N ↔ i < N ∧ i % 3 = 1) := by
  refine ⟨by simp [cellIsRoad], rfl, ?_, ?_⟩
  · constructor
    · intro h
      simp only [buildingCells, List.mem_flatMap, List.mem_filterMap,
        List.mem_range] at h
      obtain ⟨a, ha, b, hb, hf⟩ := h
      by_cases hr : a % 3 = 1 ∨ b % 3 = 1
      · simp [hr] at hf
      · simp only [hr, if_false, Option.some.injEq, Prod.mk.injEq] at hf
        obtain ⟨rfl, rfl⟩ := hf
        push_neg at hr
        refine ⟨ha, hb, ?_⟩
        simp [cellIsRoad, hr.1, hr.2]
    · rintro ⟨hi, hj, hr⟩
      simp only [cellIsRoad, Bool.or_eq_false_iff, beq_eq_false_iff_ne] at hr
      simp only [buildingCells, List.mem_flatMap, List.mem_filterMap,
        List.mem_range]
      refine ⟨i, hi, j, hj, ?_⟩
      rw [if_neg]
      rintro (h | h)
      · exact hr.1 h
      · exact hr.2 h
  · simp [roadIndices, List.mem_filter, List.mem_range, and_comm]

/-- Setting the lights leaves the phase state unchanged. -/
theorem setLights_state (tl : TrafficLight) :
    (setLights tl).state = tl.state := by
  rcases tl with ⟨s, t, r, y, g⟩
  rcases s with _ | _ | _ | s <;> rfl

/-- Setting the lights leaves the timer unchanged. -/
theorem setLights_timer (tl : TrafficLight) :
    (setLights tl).timer = tl.timer := by
  rcases tl with ⟨s, t, r, y, g⟩
  rcases s with _ | _ | _ | s <;> rfl

/-- Setting the lights is idempotent. -/
theorem setLights_idem (tl : TrafficLight) :
    setLights (setLights tl) = setLights tl := by
  rcases tl with ⟨s, t, r, y, g⟩
  rcases s with _ | _ | _ | s <;> rfl

/-- The timer/phase step keeps the phase below 3. -/
theorem tickTimer_state_lt (tl : TrafficLight) (h : tl.state < 3) :
    (tickTimer tl).state < 3 := by
  simp only [tickTimer]
  split_ifs
  · exact Nat.mod_lt _ (by norm_num)
  · exact h

/-- Timer written by one signal update, in closed form. -/
theorem updateTrafficLight_timer (tl : TrafficLight) :
    (updateTrafficLight tl).timer =
      if tl.timer + 1 / 100 > 5 then 0 else tl.timer + 1 / 100 := by
  rw [updateTrafficLight, setLights_timer]
  simp only [tickTimer]
  split_ifs <;> rfl

/-- Phase written by one signal update, in closed form. -/
theorem updateTrafficLight_state (tl : TrafficLight) :
    (updateTrafficLight tl).state =
      if tl.timer + 1 / 100 > 5 then (tl.state + 1) % 3 else tl.state := by
  rw [updateTrafficLight, setLights_state]
  simp only [tickTimer]
  split_ifs <;> rfl

/-- C2: one signal update adds the fixed increment 0.01 to the timer
and, exactly when the incremented timer strictly exceeds 5, advances
the phase by (state + 1) mod 3 and resets the timer to 0.  Concretely,
from RED with timer 4.99 the first update reaches timer 5 without a
flip, the second flips to YELLOW with timer 0, and each of the three
flips RED to YELLOW to GREEN returns to RED after exactly 3 flips. -/
theorem traffic_signal_cycle (tl : TrafficLight) :
    ((updateTrafficLight tl).timer =
      if tl.timer + 1 / 100 > 5 then 0 else tl.timer + 1 / 100) ∧
    ((updateTrafficLight tl).state =
      if tl.timer + 1 / 100 > 5 then (tl.state + 1) % 3 else tl.state) ∧
    (updateTrafficLight ⟨0, 499 / 100, 1, 0, 0⟩).state = 0 ∧
    (updateTrafficLight ⟨0, 499 / 100, 1, 0, 0⟩).timer = 5 ∧
    (updateTrafficLight (updateTrafficLight ⟨0, 499 / 100, 1, 0, 0⟩)).state
      = 1 ∧
    (updateTrafficLight (updateTrafficLight ⟨0, 499 / 100, 1, 0, 0⟩)).timer
      = 0 ∧
    (updateTrafficLight ⟨0, 501 / 100, 1, 0, 0⟩).state = 1 ∧
    (updateTrafficLight ⟨1, 501 / 100, 0, 1, 0⟩).state = 2 ∧
    (updateTrafficLight ⟨2, 501 / 100, 0, 0, 1⟩).state = 0 := by
  refine ⟨updateTrafficLight_timer tl, updateTrafficLight_state tl, ?_, ?_,
    ?_, ?_, ?_, ?_, ?_⟩ <;>
    simp only [updateTrafficLight_state, updateTrafficLight_timer] <;>
    norm_num

/-- C6: after one signal update with a valid phase, the light matching
the phase has emissive intensity 1 and the other two are 0, and the
light-setting step is idempotent. -/
theorem traffic_light_exactly_one (tl : TrafficLight) (h : tl.state < 3) :
    ((updateTrafficLight tl).red =
      if (updateTrafficLight tl).state = 0 then 1 else 0) ∧
    ((updateTrafficLight tl).yellow =
      if (updateTrafficLight tl).state = 1 then 1 else 0) ∧
    ((updateTrafficLight tl).green =
      if (updateTrafficLight tl).state = 2 then 1 else 0) ∧
    setLights (setLights tl) = setLights tl := by
  have hu : (tickTimer tl).state < 3 := tickTimer_state_lt tl h
  rcases hx : tickTimer tl with ⟨s, t, r, y, g⟩
  rw [hx] at hu
  have hs : s < 3 := hu
  have hred : (setLights ⟨s, t, r, y, g⟩).red = if s = 0 then 1 else 0 := by
    interval_cases s <;> rfl
  have hyel : (setLights ⟨s, t, r, y, g⟩).yellow =
      if s = 1 then 1 else 0 := by
    interval_cases s <;> rfl
  have hgrn : (setLights ⟨s, t, r, y, g⟩).green =
      if s = 2 then 1 else 0 := by
    interval_cases s <;> rfl
  unfold updateTrafficLight
  rw [hx]
  refine ⟨?_, ?_, ?_, setLights_idem tl⟩
  · rw [hred, setLights_state]
  · rw [hyel, setLights_state]
  · rw [hgrn, setLights_state]

/-- Witness for C6 at a concrete GREEN signal. -/
theorem traffic_light_exactly_one_witness :
    (2 : ℕ) < 3 ∧
    (((updateTrafficLight ⟨2, 0, 0, 0, 1⟩).red =
      if (updateTrafficLight ⟨2, 0, 0, 0, 1⟩).state = 0 then 1 else 0) ∧
    ((updateTrafficLight ⟨2, 0, 0, 0, 1⟩).yellow =
      if (updateTrafficLight ⟨2, 0, 0, 0, 1⟩).state = 1 then 1 else 0) ∧
    ((updateTrafficLight ⟨2, 0, 0, 0, 1⟩).green =
      if (updateTrafficLight ⟨2, 0, 0, 0, 1⟩).state = 2 then 1 else 0) ∧
    setLights (setLights ⟨2, 0, 0, 0, 1⟩) = setLights ⟨2, 0, 0, 0, 1⟩) :=
  ⟨by decide, traffic_light_exactly_one ⟨2, 0, 0, 0, 1⟩ (by decide)⟩

/-- One car step computes exactly the spec's wrap rule on the moving
axis. -/
theorem updateCar_coord (G : ℚ) (c : Car) :
    carCoord (updateCar G c) = specWrap G (carCoord c) c.speed c.direction := by
  rcases c with ⟨x, z, s, d, road, hl⟩
  cases road <;> rfl

/-- One pedestrian step computes exactly the spec's wrap rule on the
moving axis. -/
theorem updatePedestrian_coord (G : ℚ) (p : Pedestrian) :
    pedCoord (updatePedestrian G p) =
      specWrap G (pedCoord p) p.speed p.direction := by
  rcases p with ⟨x, z, rot, s, d, road⟩
  cases road <;> rfl

/-- The wrap rule keeps a nonnegative-speed actor inside
[- gridSize / 2, gridSize / 2]. -/
theorem specWrap_mem (G p s d : ℚ) (hG : 0 < G) (hs : 0 ≤ s)
    (hl : -(G / 2) ≤ p) (hu : p ≤ G / 2) :
    -(G / 2) ≤ specWrap G p s d ∧ specWrap G p s d ≤ G / 2 := by
  simp only [specWrap]
  split_ifs with h1 h2
  · constructor
    · exact le_refl _
    · linarith
  · constructor
    · linarith
    · exact le_refl _
  · push_neg at h1 h2
    rcases lt_trichotomy d 0 with hd | hd | hd
    · have hq : -(G / 2) ≤ p + s * d := h2 hd
      have hsd : s * d ≤ 0 := mul_nonpos_of_nonneg_of_nonpos hs hd.le
      exact ⟨hq, by linarith⟩
    · have hsd : s * d = 0 := by rw [hd, mul_zero]
      exact ⟨by linarith, by linarith⟩
    · have hq : p + s * d ≤ G / 2 := h1 hd
      have hsd : 0 ≤ s * d := mul_nonneg hs hd.le
      exact ⟨by linarith, hq⟩

/-- C1: a motion update advances the moving-axis coordinate by
speed * direction and applies the instantaneous wrap rule, for cars and
pedestrians alike; when the incoming coordinate is within
[- gridSize / 2, gridSize / 2] and the speed is nonnegative and at most
gridSize, the outgoing coordinate is again within that interval; and
with direction 1 and speed 0.2 a coordinate of gridSize / 2 - 0.1 wraps
to exactly - gridSize / 2 in that same update. -/
theorem motion_step_wrap (G : ℚ) (c : Car) (p : Pedestrian)
    (hG : 0 < G)
    (hcs : 0 ≤ c.speed) (hcG : c.speed ≤ G)
    (hcl : -(G / 2) ≤ carCoord c) (hcu : carCoord c ≤ G / 2)
    (hps : 0 ≤ p.speed) (hpG : p.speed ≤ G)
    (hpl : -(G / 2) ≤ pedCoord p) (hpu : pedCoord p ≤ G / 2) :
    carCoord (updateCar G c) = specWrap G (carCoord c) c.speed c.direction ∧
    pedCoord (updatePedestrian G p) =
      specWrap G (pedCoord p) p.speed p.direction ∧
    -(G / 2) ≤ carCoord (updateCar G c) ∧ carCoord (updateCar G c) ≤ G / 2 ∧
    -(G / 2) ≤ pedCoord (updatePedestrian G p) ∧
    pedCoord (updatePedestrian G p) ≤ G / 2 ∧
    specWrap G (G / 2 - 1 / 10) (1 / 5) 1 = -(G / 2) := by
  obtain ⟨hc1, hc2⟩ := specWrap_mem G (carCoord c) c.speed c.direction hG hcs
    hcl hcu
  obtain ⟨hp1, hp2⟩ := specWrap_mem G (pedCoord p) p.speed p.direction hG hps
    hpl hpu
  refine ⟨updateCar_coord G c, updatePedestrian_coord G p, ?_, ?_, ?_, ?_, ?_⟩
  · rw [updateCar_coord]; exact hc1
  · rw [updateCar_coord]; exact hc2
  · rw [updatePedestrian_coord]; exact hp1
  · rw [updatePedestrian_coord]; exact hp2
  · simp only [specWrap]
    rw [if_pos]
    constructor
    · norm_num
    · linarith

/-- A concrete car just short of the positive edge. -/
def demoCar : Car := ⟨499 / 10, 0, 1 / 5, 1, RoadAxis.horizontal, 0⟩

/-- A concrete pedestrian at the origin of its road. -/
def demoPed : Pedestrian := ⟨0, 0, 0, 1 / 20, 1, RoadAxis.horizontal⟩

/-- Witness for C1: on the gridSize-100 grid, the demo car at x = 49.9
with speed 0.2 and direction 1 wraps to exactly -50 in one update. -/
theorem motion_step_wrap_witness :
    carCoord (updateCar 100 demoCar) = -50 ∧
    specWrap 100 (100 / 2 - 1 / 10) (1 / 5) 1 = -(100 / 2) := by
  have h := motion_step_wrap 100 demoCar demoPed (by norm_num)
    (by norm_num [demoCar]) (by norm_num [demoCar])
    (by norm_num [demoCar, carCoord]) (by norm_num [demoCar, carCoord])
    (by norm_num [demoPed]) (by norm_num [demoPed])
    (by norm_num [demoPed, pedCoord]) (by norm_num [demoPed, pedCoord])
  refine ⟨?_, ?_⟩
  · rw [h.1]
    simp only [specWrap, demoCar, carCoord]
    rw [if_pos]
    · norm_num
    · constructor <;> norm_num
  · exact h.2.2.2.2.2.2

/-- C10: updateTrafficLights never reads its global-time parameter: on
the same registry state, any two time values produce identical phases,
timers and light intensities. -/
theorem traffic_time_unread (trafficLights : List TrafficLight)
    (t1 t2 : ℚ) :
    updateTrafficLights trafficLights t1 =
      updateTrafficLights trafficLights t2 :=
  rfl

/-- Sun angle at a quarter of the day is 0. -/
theorem sunAngleOf_quarter : sunAngleOf (1 / 4) = 0 := by
  unfold sunAngleOf; ring

/-- Sun height at a quarter of the day is 50, not 100. -/
theorem sunHeightOf_quarter : sunHeightOf (1 / 4) = 50 := by
  unfold sunHeightOf
  rw [sunAngleOf_quarter, Real.sin_zero]
  norm_num

/-- Sun angle at half of the day is π / 2. -/
theorem sunAngleOf_half : sunAngleOf (1 / 2) = Real.pi / 2 := by
  unfold sunAngleOf; ring

/-- Sun height at half of the day is 100. -/
theorem sunHeightOf_half : sunHeightOf (1 / 2) = 100 := by
  unfold sunHeightOf
  rw [sunAngleOf_half, Real.sin_pi_div_two]
  norm_num

/-- Sun angle at the start of the day is -π / 2. -/
theorem sunAngleOf_zero : sunAngleOf 0 = -(Real.pi / 2) := by
  unfold sunAngleOf; ring

/-- Sun height at the start of the day is 0. -/
theorem sunHeightOf_zero : sunHeightOf 0 = 0 := by
  unfold sunHeightOf
  rw [sunAngleOf_zero, Real.sin_neg, Real.sin_pi_div_two]
  norm_num

/-- Counterexample to C3: at dayProgress 0.25 the sun angle is 0 as
claimed, but the sun height is 50 rather than 100, and the sky color is
not the pure day color. -/
theorem sky_quarter_not_day :
    sunAngleOf (1 / 4) = 0 ∧ sunHeightOf (1 / 4) = 50 ∧
    skyColor (sunHeightOf (1 / 4)) ≠ dayColor := by
  refine ⟨sunAngleOf_quarter, sunHeightOf_quarter, ?_⟩
  rw [sunHeightOf_quarter]
  intro hEq
  unfold skyColor at hEq
  rw [if_neg (by norm_num), if_pos (by norm_num)] at hEq
  have h1 := congrArg Prod.fst hEq
  simp only [lerpColor, dayColor, sunsetColor] at h1
  norm_num at h1

/-- C3 (amended): at dayProgress 0.25 the sun angle is 0 but the sun
height is 50, so the background written by the day/night update is the
sunset-to-day interpolation at t = (50 - 25) / 55; the pure day color
is produced at dayProgress 0.5, where the sun height is 100 and the
h > 80 branch applies. -/
theorem sky_quarter_corrected :
    sunAngleOf (1 / 4) = 0 ∧ sunHeightOf (1 / 4) = 50 ∧
    (∀ s : SceneState, (updateDayNightCycle (1 / 4) s).background =
      lerpColor sunsetColor dayColor ((50 - 25) / 55)) ∧
    sunHeightOf (1 / 2) = 100 ∧
    (∀ s : SceneState,
      (updateDayNightCycle (1 / 2) s).background = dayColor) := by
  refine ⟨sunAngleOf_quarter, sunHeightOf_quarter, ?_, sunHeightOf_half, ?_⟩
  · intro s
    show skyColor (sunHeightOf (1 / 4)) = _
    rw [sunHeightOf_quarter]
    unfold skyColor
    rw [if_neg (by norm_num), if_pos (by norm_num)]
  · intro s
    show skyColor (sunHeightOf (1 / 2)) = _
    rw [sunHeightOf_half]
    unfold skyColor
    rw [if_pos (by norm_num)]

/-- C8: at sun height exactly 25 the night-to-sunset band applies with
t = 1 and yields the pure sunset color, and the adjacent sunset-to-day
band at t = 0 also yields the sunset color, so the two interpolation
bands agree at the boundary. -/
theorem sky_sunset_boundary :
    skyColor 25 = sunsetColor ∧
    lerpColor nightColor sunsetColor (25 / 25) = sunsetColor ∧
    lerpColor sunsetColor dayColor ((25 - 25) / 55) = sunsetColor := by
  have h2 : lerpColor nightColor sunsetColor (25 / 25) = sunsetColor := by
    simp only [lerpColor, nightColor, sunsetColor, Prod.mk.injEq]
    norm_num
  have h3 : lerpColor sunsetColor dayColor ((25 - 25) / 55) = sunsetColor := by
    simp only [lerpColor, sunsetColor, dayColor, Prod.mk.injEq]
    norm_num
  refine ⟨?_, h2, h3⟩
  unfold skyColor
  rw [if_neg (by norm_num), if_neg (by norm_num), if_pos (by norm_num)]
  exact h2

/-- C7: the day/night update writes lampIntensity of the sun height to
both the point-light intensity and the bulb emissive of every lamppost;
that function is monotonically non-increasing on [0, 30] and exactly 0
from 30 on. -/
theorem lamp_intensity_correct :
    (∀ (dp : ℝ) (s : SceneState),
      (updateDayNightCycle dp s).lamps = s.lamps.map fun l =>
        { l with lightIntensity := lampIntensity (sunHeightOf dp),
                 bulbEmissiveIntensity := lampIntensity (sunHeightOf dp) }) ∧
    (∀ h1 h2 : ℝ, 0 ≤ h1 → h1 ≤ h2 → h2 ≤ 30 →
      lampIntensity h2 ≤ lampIntensity h1) ∧
    (∀ h : ℝ, 30 ≤ h → lampIntensity h = 0) := by
  refine ⟨?_, ?_, ?_⟩
  · intro dp s
    simp only [updateDayNightCycle]
    congr 1
    funext l
    unfold lampIntensity
    split_ifs <;> rfl
  · intro h1 h2 h01 h12 h230
    unfold lampIntensity
    split_ifs with ha hb
    · exact max_le_max le_rfl (by linarith)
    · exact (hb (lt_of_le_of_lt h12 ha)).elim
    · exact le_max_left _ _
    · exact le_refl 0
  · intro h hh
    unfold lampIntensity
    rw [if_neg (not_lt.mpr hh)]

/-- Witness for C7: the monotonicity and vanishing parts at the
concrete heights 10, 20 and 35, with the intensity evaluated there. -/
theorem lamp_intensity_correct_witness :
    ((0 : ℝ) ≤ 10 ∧ (10 : ℝ) ≤ 20 ∧ (20 : ℝ) ≤ 30 ∧
      lampIntensity 20 ≤ lampIntensity 10) ∧
    ((30 : ℝ) ≤ 35 ∧ lampIntensity 35 = 0) ∧
    lampIntensity 10 = 2 / 3 ∧ lampIntensity 20 = 1 / 3 := by
  obtain ⟨hmap, hmono, hzero⟩ := lamp_intensity_correct
  refine ⟨⟨by norm_num, by norm_num, by norm_num,
    hmono 10 20 (by norm_num) (by norm_num) (by norm_num)⟩,
    ⟨by norm_num, hzero 35 (by norm_num)⟩, ?_, ?_⟩
  · unfold lampIntensity
    rw [if_pos (by norm_num)]
    rw [max_eq_right (by norm_num)]
    norm_num
  · unfold lampIntensity
    rw [if_pos (by norm_num)]
    rw [max_eq_right (by norm_num)]
    norm_num

/-- A concrete lamppost. -/
noncomputable def demoLamp : Lamp := ⟨3, 4, 1, 1⟩

/-- A concrete scene with one building, one car, one pedestrian and one
lamppost, and the sun light parked at (0, 1, 0). -/
noncomputable def demoScene : SceneState :=
  { sunLightPos := (0, 1, 0)
    sunIntensity := 1
    ambientIntensity := 3 / 10
    background := (0, 0, 0)
    buildingPositions := [(5, 5)]
    cars := [demoCar]
    pedestrians := [demoPed]
    lamps := [demoLamp] }

/-- Counterexample to C9: the day/night update does change a position
it touches, namely the sun light's position. -/
theorem daynight_moves_sun :
    (updateDayNightCycle 0 demoScene).sunLightPos ≠
      demoScene.sunLightPos := by
  intro hEq
  have h2 := congrArg (fun v : ℝ × ℝ × ℝ => v.2.1) hEq
  simp only [updateDayNightCycle, demoScene] at h2
  rw [sunHeightOf_zero] at h2
  norm_num at h2

/-- C9 (amended): one invocation of the day/night update moves the sun
light's position but performs only intensity and color writes on the
actor registries: building, car, pedestrian and lamppost positions are
all unchanged. -/
theorem daynight_preserves_actor_positions (dp : ℝ) (s : SceneState) :
    (updateDayNightCycle dp s).buildingPositions = s.buildingPositions ∧
    (updateDayNightCycle dp s).cars.map carPos = s.cars.map carPos ∧
    (updateDayNightCycle dp s).pedestrians = s.pedestrians ∧
    (updateDayNightCycle dp s).lamps.map lampPos = s.lamps.map lampPos := by
  refine ⟨rfl, ?_, rfl, ?_⟩
  · show (s.cars.map _).map carPos = _
    rw [List.map_map]
    congr 1
  · show (s.lamps.map _).map lampPos = _
    rw [List.map_map]
    congr 1
    funext l
    simp only [Function.comp]
    split_ifs <;> rfl

end Cityscape
